import Mathlib

/-!
Verification of the valyr-hub resilience-and-settlement subsystem.

This file gives a shallow embedding of the subsystem's core operations
(credit ledger, circuit breaker, retry policy, pricing engine, usage
pre-check, multi-chain anchoring fan-out) and proves the specification's
claims about them.

Conventions of the embedding:
* Prisma `Decimal` values (exact decimal arithmetic) are modelled as `ℚ`.
* Timestamps (`Date.now()`) are modelled as `Nat` milliseconds.
* A JavaScript `async` function that can `throw` is modelled as a function
  into `Except`; a Prisma `$transaction` that rolls back on a thrown error
  is modelled by returning the unchanged pre-state alongside the error.
* External collaborators (the database row for the one account under
  consideration, the Redis cache, the random source) are passed in as
  explicit parameters.  The Redis balance cache of `getBalance` is modelled
  in its miss state, which is the defined behaviour for an account that
  does not exist yet.
-/

namespace ValyrHub

/-! ### Credit ledger data model, from src/services/credit-management.ts and
src/types/billing.ts -/

/-- `CreditTransactionType` from src/types/billing.ts:
TOPUP | USAGE | REFUND | ADJUSTMENT | BONUS | PENALTY. -/
inductive CreditTransactionType where
  | topup
  | usage
  | refund
  | adjustment
  | bonus
  | penalty
  deriving Repr, DecidableEq

/-- The `userCredit` row mutated by `CreditManagementService`
(balance fields are Prisma `Decimal`, modelled as `ℚ`). -/
structure UserCredit where
  balance : ℚ
  totalAllocated : ℚ
  totalUsed : ℚ
  lowBalanceThreshold : Option ℚ
  autoTopupEnabled : Bool
  autoTopupAmount : Option ℚ
  isActive : Bool
  suspendedAt : Option Nat
  suspensionReason : Option String
  deriving Repr, DecidableEq

/-- A `creditTransaction` row as created by `addCredits` / `deductCredits`
(`description`, `reference`, `metadata`, `processedBy` are free-form
strings carried through unchanged and are not modelled). -/
structure CreditTransaction where
  type : CreditTransactionType
  amount : ℚ
  balanceBefore : ℚ
  balanceAfter : ℚ
  deriving Repr, DecidableEq

/-- The slice of database state one ledger call touches: the (at most one)
`userCredit` row for the user at hand, and the `creditTransaction` rows
referencing it, in insertion order. -/
structure LedgerState where
  account : Option UserCredit
  transactions : List CreditTransaction
  deriving Repr, DecidableEq

/-- The errors `deductCredits` can throw:
`Credit account not found for user: …`, `Credit account suspended for
user: …`, `InsufficientCreditsError(required, available, userId)`.
`lowBalanceHandlerFailed` is the hypothetical propagation of an error out
of `handleLowBalance`; the theorems show it is unreachable because
`handleLowBalance` swallows every error. -/
inductive CreditError where
  | accountNotFound (userId : String)
  | accountSuspended (userId : String)
  | insufficientCredits (required available : ℚ) (userId : String)
  | lowBalanceHandlerFailed (msg : String)
  deriving Repr, DecidableEq

/-- `createCreditAccount` (credit-management.ts:441): a fresh active account
with `balance`, `totalAllocated`, `totalUsed` all `Decimal(0)` and all
optional fields unset. -/
def createCreditAccount : UserCredit :=
  { balance := 0
    totalAllocated := 0
    totalUsed := 0
    lowBalanceThreshold := none
    autoTopupEnabled := false
    autoTopupAmount := none
    isActive := true
    suspendedAt := none
    suspensionReason := none }

/-- `getBalance` (credit-management.ts:19), cache-miss path: read the row,
lazily creating the account when it does not exist, and return its fields.
The 5-minute Redis cache only memoises this result and is not modelled. -/
def getBalance (s : LedgerState) : UserCredit × LedgerState :=
  match s.account with
  | some userCredit => (userCredit, s)
  | none => (createCreditAccount, { s with account := some createCreditAccount })

/-- `addCredits` (credit-management.ts:80): inside one storage transaction,
read the row (lazily creating it), add `amount` to `balance` and
`totalAllocated`, and append one `creditTransaction` row recording the
balance before and after.  The source performs no validation on this path,
so it cannot reject. -/
def addCredits (amount : ℚ) (type : CreditTransactionType) (s : LedgerState) :
    UserCredit × LedgerState :=
  let userCredit := match s.account with
    | some userCredit => userCredit
    | none => createCreditAccount
  let balanceBefore := userCredit.balance
  let balanceAfter := balanceBefore + amount
  let updatedCredit :=
    { userCredit with
        balance := balanceAfter
        totalAllocated := userCredit.totalAllocated + amount }
  (updatedCredit,
   { account := some updatedCredit
     transactions := s.transactions ++
       [{ type := type, amount := amount, balanceBefore := balanceBefore,
          balanceAfter := balanceAfter }] })

/-- `handleLowBalance` (credit-management.ts:463): its whole body is inside
`try { … } catch { logger.error(…) }`, so whatever the notification /
auto-topup body does (`body` is its outcome), the call itself returns
normally. -/
def handleLowBalance (body : Except String Unit) : Except String Unit :=
  match body with
  | .ok _ => .ok ()
  | .error _ => .ok ()

/-- What one `deductCredits` call produced: the value or error returned to
the caller, the database state after commit or rollback, and whether the
low-balance side effect was triggered. -/
structure DeductOutcome where
  result : Except CreditError UserCredit
  state : LedgerState
  lowBalanceTriggered : Bool
  deriving Repr

/-- `deductCredits` (credit-management.ts:155): inside one storage
transaction, read the row; throw (rolling back) if the account is missing,
suspended, or `balanceBefore.lt(amount)`; otherwise subtract `amount` from
`balance`, add it to `totalUsed`, append one `creditTransaction` row, and
— still inside the transaction — run the low-balance handler when a
threshold is set and `balanceAfter ≤ threshold`.  `lowBalanceBody` is the
outcome of the handler's inner body. -/
def deductCredits (userId : String) (amount : ℚ) (type : CreditTransactionType)
    (lowBalanceBody : Except String Unit) (s : LedgerState) : DeductOutcome :=
  match s.account with
  | none => ⟨.error (.accountNotFound userId), s, false⟩
  | some userCredit =>
    if userCredit.isActive = false then
      ⟨.error (.accountSuspended userId), s, false⟩
    else
      let balanceBefore := userCredit.balance
      if balanceBefore < amount then
        ⟨.error (.insufficientCredits amount balanceBefore userId), s, false⟩
      else
        let balanceAfter := balanceBefore - amount
        let updatedCredit :=
          { userCredit with
              balance := balanceAfter
              totalUsed := userCredit.totalUsed + amount }
        let triggered := match updatedCredit.lowBalanceThreshold with
          | some threshold => decide (balanceAfter ≤ threshold)
          | none => false
        match (if triggered then handleLowBalance lowBalanceBody else .ok ()) with
        | .error msg => ⟨.error (.lowBalanceHandlerFailed msg), s, triggered⟩
        | .ok _ =>
          ⟨.ok updatedCredit,
           { account := some updatedCredit
             transactions := s.transactions ++
               [{ type := type, amount := amount, balanceBefore := balanceBefore,
                  balanceAfter := balanceAfter }] },
           triggered⟩

/-- The data-model invariant on a credit account:
`balance == totalAllocated − totalUsed`. -/
def balanceInvariant (userCredit : UserCredit) : Prop :=
  userCredit.balance = userCredit.totalAllocated - userCredit.totalUsed

instance (userCredit : UserCredit) : Decidable (balanceInvariant userCredit) := by
  unfold balanceInvariant; infer_instance

/-! ### Circuit breaker, from src/utils/circuit-breaker.ts -/

/-- `CircuitBreakerState`: CLOSED | OPEN | HALF_OPEN. -/
inductive CBState where
  | closed
  | opened
  | halfOpen
  deriving Repr, DecidableEq

/-- `CircuitBreakerOptions` (`expectedErrors`, the optional classifier, is
not stored here: each failed operation instead carries the Boolean
`classified` := "no classifier is configured, or the classifier accepts
this error", which is the only way the source consults it). -/
structure CircuitBreakerOptions where
  failureThreshold : Nat
  recoveryTimeout : Nat
  monitoringPeriod : Nat
  deriving Repr, DecidableEq

/-- The mutable fields of a `CircuitBreaker` instance. -/
structure CircuitBreaker where
  state : CBState
  failureCount : Nat
  lastFailureTime : Option Nat
  nextAttemptTime : Nat
  deriving Repr, DecidableEq

/-- What the wrapped operation does when invoked: resolve, or reject with
an error that the breaker's classifier does (`classified = true`) or does
not (`classified = false`) count toward tripping. -/
inductive OpOutcome where
  | success
  | failure (classified : Bool)
  deriving Repr, DecidableEq

/-- What one `execute` call returned to its caller. -/
inductive ExecResult where
  | rejectedOpen
  | opSucceeded
  | opFailed
  deriving Repr, DecidableEq

/-- The full effect of one `execute` call: its result, the breaker
afterwards, and how many times the wrapped operation was invoked. -/
structure ExecOutcome where
  result : ExecResult
  breaker : CircuitBreaker
  invocations : Nat
  deriving Repr, DecidableEq

namespace CircuitBreaker

/-- `onSuccess` (circuit-breaker.ts:54): reset `failureCount`; leave
HALF_OPEN for CLOSED. -/
def onSuccess (b : CircuitBreaker) : CircuitBreaker :=
  { b with
      failureCount := 0
      state := if b.state = .halfOpen then .closed else b.state }

/-- `onFailure` (circuit-breaker.ts:62): a non-classified error returns
early and changes nothing; a classified one bumps `failureCount` and
`lastFailureTime`, then re-opens from HALF_OPEN, or opens from CLOSED once
`failureCount` reaches the threshold, setting
`nextAttemptTime = now + recoveryTimeout`. -/
def onFailure (opts : CircuitBreakerOptions) (b : CircuitBreaker) (now : Nat)
    (classified : Bool) : CircuitBreaker :=
  if classified = false then b
  else
    let b1 := { b with failureCount := b.failureCount + 1, lastFailureTime := some now }
    if b1.state = .halfOpen then
      { b1 with state := .opened, nextAttemptTime := now + opts.recoveryTimeout }
    else if opts.failureThreshold ≤ b1.failureCount then
      { b1 with state := .opened, nextAttemptTime := now + opts.recoveryTimeout }
    else b1

/-- `execute` (circuit-breaker.ts:34): when OPEN and `now <
nextAttemptTime`, throw `CircuitBreakerOpenError` without invoking the
operation; when OPEN and expired, move to HALF_OPEN first; then invoke the
operation once and apply `onSuccess` / `onFailure`, rethrowing the
operation's error. -/
def execute (opts : CircuitBreakerOptions) (b : CircuitBreaker) (now : Nat)
    (op : OpOutcome) : ExecOutcome :=
  if b.state = .opened ∧ now < b.nextAttemptTime then
    ⟨.rejectedOpen, b, 0⟩
  else
    let b1 := if b.state = .opened then { b with state := .halfOpen } else b
    match op with
    | .success => ⟨.opSucceeded, onSuccess b1, 1⟩
    | .failure classified => ⟨.opFailed, onFailure opts b1 now classified, 1⟩

end CircuitBreaker

/-! ### Retry policy, from src/utils/retry.ts -/

/-- `RetryOptions`.  Delays are exact (`ℚ`) milliseconds. -/
structure RetryOptions where
  maxAttempts : Nat
  baseDelay : ℚ
  maxDelay : ℚ
  backoffMultiplier : ℚ
  jitter : Bool
  deriving Repr, DecidableEq

/-- One attempt's outcome: the operation resolves, or rejects with an
error that is (`NonRetryableError`) or is not marked non-retryable. -/
inductive AttemptOutcome where
  | success
  | failure (nonRetryable : Bool)
  deriving Repr, DecidableEq

/-- How `withRetry` fails: rethrow of a `NonRetryableError`, or the final
`Error("… failed after ${maxAttempts} attempts: …")` carrying the
configured attempt count. -/
inductive RetryError where
  | nonRetryable
  | exhausted (attempts : Nat)
  deriving Repr, DecidableEq

/-- The observable behaviour of one `withRetry` call: its result, how many
times the operation ran, and the backoff delays slept between attempts, in
order. -/
structure RetryTrace where
  result : Except RetryError Unit
  attemptsUsed : Nat
  delays : List ℚ
  deriving Repr

/-- The delay computed before retrying after attempt `attempt`
(retry.ts:65): `min(baseDelay * backoffMultiplier^(attempt-1), maxDelay)`,
then `* (0.5 + Math.random() * 0.5)` when jitter is on; `r` stands for
that call's `Math.random()` value. -/
def retryDelay (cfg : RetryOptions) (attempt : Nat) (r : ℚ) : ℚ :=
  let d := min (cfg.baseDelay * cfg.backoffMultiplier ^ (attempt - 1)) cfg.maxDelay
  if cfg.jitter then d * (1/2 + r * (1/2)) else d

/-- The loop of `withRetry` (retry.ts:44), recursing on the number of
remaining attempts; `attempt` is the 1-based loop counter, `outcomes n`
the n-th attempt's outcome, `rand n` the `Math.random()` drawn after
attempt `n`. -/
def withRetryGo (cfg : RetryOptions) (outcomes : Nat → AttemptOutcome) (rand : Nat → ℚ) :
    Nat → Nat → RetryTrace
  | _, 0 => ⟨.error (.exhausted cfg.maxAttempts), 0, []⟩
  | attempt, remaining + 1 =>
    match outcomes attempt, remaining with
    | .success, _ => ⟨.ok (), 1, []⟩
    | .failure true, _ => ⟨.error .nonRetryable, 1, []⟩
    | .failure false, 0 => ⟨.error (.exhausted cfg.maxAttempts), 1, []⟩
    | .failure false, n + 1 =>
      let d := retryDelay cfg attempt (rand attempt)
      let rest := withRetryGo cfg outcomes rand (attempt + 1) (n + 1)
      ⟨rest.result, rest.attemptsUsed + 1, d :: rest.delays⟩

/-- `withRetry` (retry.ts:36): run the loop from attempt 1 with
`maxAttempts` attempts remaining. -/
def withRetry (cfg : RetryOptions) (outcomes : Nat → AttemptOutcome) (rand : Nat → ℚ) :
    RetryTrace :=
  withRetryGo cfg outcomes rand 1 cfg.maxAttempts

/-! ### Pricing engine, from src/config/pricing.ts and the
`UsageProcessorService` (src/unnamed/part_004) -/

/-- A `PricingRule` / pricing-tier row as consumed by the calculators.
`endpointPricing` is the path → flat-override map, as an association
list. -/
structure PricingRule where
  basePrice : ℚ
  sizeMultiplier : ℚ
  durationMultiplier : ℚ
  endpointPricing : List (String × ℚ)
  deriving Repr, DecidableEq

/-- The breakdown returned by `performPricingCalculation` /
`PricingCalculator.calculateCost`. -/
structure PricingCalculation where
  basePrice : ℚ
  sizePrice : ℚ
  durationPrice : ℚ
  endpointPrice : ℚ
  totalPrice : ℚ
  deriving Repr, DecidableEq

/-- The endpoint-specific component: `endpointPricing[endpoint]` when that
value is truthy (a present, non-zero price), otherwise `Decimal(0)`.  A
mapped price of `0` is falsy in the source and also yields `0`. -/
def endpointPriceOf (endpointPricing : List (String × ℚ)) (endpoint : String) : ℚ :=
  match endpointPricing.lookup endpoint with
  | some p => if p = 0 then 0 else p
  | none => 0

/-- `UsageProcessorService.performPricingCalculation` (part_004:344):
`sizePrice = ((requestSize + responseSize) / 1024) * sizeMultiplier`,
`durationPrice = (duration / 1000) * durationMultiplier`,
`totalPrice = basePrice + sizePrice + durationPrice + endpointPrice`.
Sizes are bytes and the duration is milliseconds, passed as `ℚ` so the two
divisions are exact. -/
def performPricingCalculation (endpoint : String) (requestSize responseSize duration : ℚ)
    (pricing : PricingRule) : PricingCalculation :=
  let sizeInKB := (requestSize + responseSize) / 1024
  let sizePrice := sizeInKB * pricing.sizeMultiplier
  let durationInSeconds := duration / 1000
  let durationPrice := durationInSeconds * pricing.durationMultiplier
  let endpointPrice := endpointPriceOf pricing.endpointPricing endpoint
  { basePrice := pricing.basePrice
    sizePrice := sizePrice
    durationPrice := durationPrice
    endpointPrice := endpointPrice
    totalPrice := pricing.basePrice + sizePrice + durationPrice + endpointPrice }

/-- `PricingCalculator.calculateCost` (src/config/pricing.ts:80) — the same
formula, written against the tier fields. -/
def calculateCost (basePrice sizeMultiplier durationMultiplier : ℚ)
    (endpointPricing : List (String × ℚ)) (endpoint : String)
    (requestSize responseSize duration : ℚ) : PricingCalculation :=
  let sizeCost := (requestSize + responseSize) / 1024 * sizeMultiplier
  let durationCost := duration / 1000 * durationMultiplier
  let endpointCost := endpointPriceOf endpointPricing endpoint
  { basePrice := basePrice
    sizePrice := sizeCost
    durationPrice := durationCost
    endpointPrice := endpointCost
    totalPrice := basePrice + sizeCost + durationCost + endpointCost }

/-- `PricingTierNotFoundError` (src/types/billing.ts:207). -/
inductive PricingError where
  | tierNotFound (tierName : String)
  deriving Repr, DecidableEq

/-- A `pricingTier` database row as far as `getPricingRule` reads it. -/
structure PricingTierRow where
  name : String
  isActive : Bool
  rule : PricingRule
  deriving Repr, DecidableEq

/-- `UsageProcessorService.getPricingRule` (part_004:309), cache-miss path:
`findUnique({ where: { name, isActive: true } })`; an unknown or inactive
tier yields `null` and raises `PricingTierNotFoundError`. -/
def getPricingRule (db : List PricingTierRow) (tierName : String) :
    Except PricingError PricingRule :=
  match db.find? (fun row => row.name == tierName && row.isActive) with
  | some row => .ok row.rule
  | none => .error (.tierNotFound tierName)

/-- `UsageProcessorService.estimateCost` (part_004:124): look the tier up,
price the request with `estimatedResponseSize = max(requestSize, 1024)`
and the caller's estimated duration — and, in the surrounding `catch`,
return `Decimal(0)` on any error "to avoid blocking requests". -/
def estimateCost (db : List PricingTierRow) (tierName : String) (endpoint : String)
    (requestSize estimatedDuration : ℚ) : ℚ :=
  match getPricingRule db tierName with
  | .error _ => 0
  | .ok pricing =>
    let estimatedResponseSize := max requestSize 1024
    (performPricingCalculation endpoint requestSize estimatedResponseSize
      estimatedDuration pricing).totalPrice

/-- The outcome of `UsageTrackingMiddleware.preCheckCredits`
(part_003:186): the request is admitted (with or without the balance ever
being fetched and compared) or rejected with
`InsufficientCreditsError(required, available)`. -/
inductive PreCheckResult where
  | admitted (balanceChecked : Bool)
  | rejected (required available : ℚ)
  deriving Repr, DecidableEq

/-- `preCheckCredits` (part_003:186): only when
`estimatedCost.gt(0)` is the balance fetched and compared;
`balance.lt(estimatedCost)` throws `InsufficientCreditsError`. -/
def preCheckCredits (estimatedCost balance : ℚ) : PreCheckResult :=
  if 0 < estimatedCost then
    if balance < estimatedCost then .rejected estimatedCost balance
    else .admitted true
  else .admitted false

/-! ### Multi-chain anchoring fan-out, from `anchorToBlockchains`
(src/unnamed/part_005:294) -/

/-- One element of a `Promise.allSettled` result array. -/
inductive SettledResult (ε α : Type) where
  | fulfilled (value : α)
  | rejected (reason : ε)
  deriving Repr, DecidableEq

/-- `Promise.allSettled`: every promise in the list is awaited to
settlement; fulfilled values and rejection reasons are both kept, in input
order. -/
def promiseAllSettled {ε α : Type} (calls : List (Except ε α)) :
    List (SettledResult ε α) :=
  calls.map fun c =>
    match c with
    | .ok v => .fulfilled v
    | .error e => .rejected e

/-- The per-chain transaction-hash fields `anchorToBlockchains` writes back
to the proof records: set only for chains whose anchor call fulfilled. -/
structure AnchorUpdateData where
  ethereumTxHash : Option String
  arbitrumTxHash : Option String
  starknetTxHash : Option String
  deriving Repr, DecidableEq

/-- The tx hash recorded for one chain: present exactly when that chain's
settled entry is fulfilled. -/
def txHashIfFulfilled (call : Except String String) : Option String :=
  match call with
  | .ok txHash => some txHash
  | .error _ => none

/-- `anchorToBlockchains` (part_005:294): issue the Ethereum, Arbitrum and
Starknet anchor calls (their outcomes are `eth`, `arb`, `stark`: a tx hash
or a thrown error), `Promise.allSettled` them, and record the fulfilled
chains' tx hashes.  The body sits in a `try`/`catch` that only logs, so
the call always returns normally (`Except.ok`). -/
def anchorToBlockchains (eth arb stark : Except String String) :
    Except String (List (SettledResult String String) × AnchorUpdateData) :=
  let anchorResults := promiseAllSettled [eth, arb, stark]
  .ok (anchorResults,
    { ethereumTxHash := txHashIfFulfilled eth
      arbitrumTxHash := txHashIfFulfilled arb
      starknetTxHash := txHashIfFulfilled stark })

/-! ### Concrete accounts used by witnesses and counterexamples -/

/-- An active account with balance 10 (allocated 10, used 0). -/
def activeTenAccount : UserCredit :=
  { createCreditAccount with balance := 10, totalAllocated := 10 }

/-- A suspended account with balance 10. -/
def suspendedTenAccount : UserCredit :=
  { createCreditAccount with
      balance := 10, totalAllocated := 10, isActive := false,
      suspendedAt := some 0, suspensionReason := some "abuse" }

/-- An account satisfying the ledger invariant: balance 10 = 12 − 2. -/
def invAccount : UserCredit :=
  { createCreditAccount with balance := 10, totalAllocated := 12, totalUsed := 2 }

/-- An active account with balance 10 and low-balance threshold 5. -/
def lowBalAccount : UserCredit :=
  { createCreditAccount with
      balance := 10, totalAllocated := 10, lowBalanceThreshold := some 5 }

/-- For every Boolean guard and every handler-body outcome, the guarded
low-balance call returns normally: `handleLowBalance` swallows errors. -/
theorem handleLowBalance_guard_ok (t : Bool) (body : Except String Unit) :
    (if t then handleLowBalance body else .ok ()) = .ok () := by
  cases t <;> cases body <;> rfl

/-- Claim C1 (amended: the account is active): a deduct of `amount` from an
active account whose balance is short throws
`InsufficientCreditsError(required := amount, available := balance)` and
performs no writes — the account row and the transaction list are exactly
as before. -/
theorem claim_C1_deduct_insufficient_no_writes (userId : String) (amount : ℚ)
    (type : CreditTransactionType) (body : Except String Unit) (s : LedgerState)
    (userCredit : UserCredit) (hacc : s.account = some userCredit)
    (hactive : userCredit.isActive = true) (hlt : userCredit.balance < amount) :
    deductCredits userId amount type body s
      = ⟨.error (.insufficientCredits amount userCredit.balance userId), s, false⟩ := by
  simp [deductCredits, hacc, hactive, hlt]

/-- Witness for C1: balance 10, deduct 15 rejects with
`InsufficientCredits{required: 15, available: 10}` leaving state intact. -/
theorem claim_C1_witness :
    deductCredits "tenant-1" 15 .usage (.ok ()) ⟨some activeTenAccount, []⟩
      = ⟨.error (.insufficientCredits 15 10 "tenant-1"),
         ⟨some activeTenAccount, []⟩, false⟩ := by
  have h := claim_C1_deduct_insufficient_no_writes "tenant-1" 15 .usage (.ok ())
    ⟨some activeTenAccount, []⟩ activeTenAccount rfl rfl (by decide)
  exact h

/-- Counterexample for C1 as frozen: on a suspended account with balance 10
a deduct of 15 rejects with the `Credit account suspended` error, not with
`InsufficientCredits{required: 15, available: 10}`. -/
theorem claim_C1_counterexample :
    (deductCredits "tenant-1" 15 .usage (.ok ())
        ⟨some suspendedTenAccount, []⟩).result
      = .error (.accountSuspended "tenant-1")
    ∧ (deductCredits "tenant-1" 15 .usage (.ok ())
        ⟨some suspendedTenAccount, []⟩).result
      ≠ .error (.insufficientCredits 15 10 "tenant-1") := by
  constructor
  · rfl
  · intro h
    simp [deductCredits, suspendedTenAccount, createCreditAccount] at h

/-- Claim C2: both balance mutations preserve
`balance == totalAllocated − totalUsed` and append exactly one
`CreditTransaction` row, in the same storage transaction, whose
`balanceBefore`/`balanceAfter` are the account balance before/after:
stated for `addCredits` on an existing account, `addCredits` on a lazily
created account, and every accepted `deductCredits`. -/
theorem claim_C2_invariant_single_row (userId : String) (amount : ℚ)
    (type : CreditTransactionType) (body : Except String Unit) (s : LedgerState) :
    (∀ userCredit, s.account = some userCredit → balanceInvariant userCredit →
      balanceInvariant (addCredits amount type s).1
      ∧ (addCredits amount type s).1.balance = userCredit.balance + amount
      ∧ (addCredits amount type s).1.totalAllocated = userCredit.totalAllocated + amount
      ∧ (addCredits amount type s).1.totalUsed = userCredit.totalUsed
      ∧ (addCredits amount type s).2.account = some (addCredits amount type s).1
      ∧ (addCredits amount type s).2.transactions
          = s.transactions
              ++ [⟨type, amount, userCredit.balance, userCredit.balance + amount⟩])
    ∧ (s.account = none →
      balanceInvariant (addCredits amount type s).1
      ∧ (addCredits amount type s).2.account = some (addCredits amount type s).1
      ∧ (addCredits amount type s).2.transactions
          = s.transactions ++ [⟨type, amount, 0, 0 + amount⟩])
    ∧ (∀ userCredit updatedCredit,
        s.account = some userCredit → balanceInvariant userCredit →
        (deductCredits userId amount type body s).result = .ok updatedCredit →
        balanceInvariant updatedCredit
        ∧ updatedCredit.balance = userCredit.balance - amount
        ∧ updatedCredit.totalUsed = userCredit.totalUsed + amount
        ∧ updatedCredit.totalAllocated = userCredit.totalAllocated
        ∧ (deductCredits userId amount type body s).state.account = some updatedCredit
        ∧ (deductCredits userId amount type body s).state.transactions
            = s.transactions
                ++ [⟨type, amount, userCredit.balance, userCredit.balance - amount⟩]) := by
  refine ⟨?_, ?_, ?_⟩
  · intro userCredit hacc hinv
    unfold balanceInvariant at hinv ⊢
    refine ⟨?_, ?_, ?_, ?_, ?_, ?_⟩ <;> simp [addCredits, hacc]
    linarith
  · intro hacc
    unfold balanceInvariant
    refine ⟨?_, ?_, ?_⟩ <;> simp [addCredits, hacc, createCreditAccount]
  · intro userCredit updatedCredit hacc hinv hres
    unfold balanceInvariant at hinv
    by_cases hact : userCredit.isActive = false
    · simp [deductCredits, hacc, hact] at hres
    · by_cases hlt : userCredit.balance < amount
      · simp [deductCredits, hacc, hact, hlt] at hres
      · simp [deductCredits, hacc, hact, hlt, handleLowBalance_guard_ok] at hres
        subst hres
        refine ⟨?_, rfl, rfl, rfl, ?_, ?_⟩
        · unfold balanceInvariant
          dsimp only
          linarith
        · simp [deductCredits, hacc, hact, hlt, handleLowBalance_guard_ok]
        · simp [deductCredits, hacc, hact, hlt, handleLowBalance_guard_ok]

/-- Witness for C2: adding 5 to an account with balance 10 = 12 − 2 keeps
the invariant and appends exactly the row (TOPUP, 5, 10, 15). -/
theorem claim_C2_witness :
    balanceInvariant (addCredits 5 .topup ⟨some invAccount, []⟩).1
    ∧ (addCredits 5 .topup ⟨some invAccount, []⟩).2.transactions
        = [⟨.topup, 5, 10, 15⟩] := by
  have h := (claim_C2_invariant_single_row "tenant-1" 5 .topup (.ok ())
    ⟨some invAccount, []⟩).1 invAccount rfl
    (by norm_num [balanceInvariant, invAccount, createCreditAccount])
  have h2 := h.2.2.2.2.2
  norm_num [invAccount, createCreditAccount] at h2
  exact ⟨h.1, h2⟩

/-- Claim C7: when a deduct crosses the low-balance threshold downward
(balance > threshold before, ≤ threshold after), the low-balance side
effect runs, and whatever its body does — including raising an error —
the deduct is unaffected: the call commits the same updated account and
the same single `CreditTransaction` row for every body outcome. -/
theorem claim_C7_low_balance_never_blocks (userId : String) (amount : ℚ)
    (type : CreditTransactionType) (body : Except String Unit) (s : LedgerState)
    (userCredit : UserCredit) (threshold : ℚ)
    (hacc : s.account = some userCredit) (hactive : userCredit.isActive = true)
    (hth : userCredit.lowBalanceThreshold = some threshold)
    (_habove : threshold < userCredit.balance)
    (hcross : userCredit.balance - amount ≤ threshold)
    (hsuff : amount ≤ userCredit.balance) :
    (deductCredits userId amount type body s).lowBalanceTriggered = true
    ∧ deductCredits userId amount type body s
        = deductCredits userId amount type (.ok ()) s
    ∧ deductCredits userId amount type body s
        = ⟨.ok { userCredit with
                   balance := userCredit.balance - amount
                   totalUsed := userCredit.totalUsed + amount },
           { account := some { userCredit with
                                 balance := userCredit.balance - amount
                                 totalUsed := userCredit.totalUsed + amount }
             transactions := s.transactions ++
               [⟨type, amount, userCredit.balance, userCredit.balance - amount⟩] },
           true⟩ := by
  have hnlt : ¬ userCredit.balance < amount := not_lt.mpr hsuff
  have hmain : ∀ b : Except String Unit,
      deductCredits userId amount type b s
        = ⟨.ok { userCredit with
                   balance := userCredit.balance - amount
                   totalUsed := userCredit.totalUsed + amount },
           { account := some { userCredit with
                                 balance := userCredit.balance - amount
                                 totalUsed := userCredit.totalUsed + amount }
             transactions := s.transactions ++
               [⟨type, amount, userCredit.balance, userCredit.balance - amount⟩] },
           true⟩ := by
    intro b
    cases b <;>
      simp [deductCredits, handleLowBalance, hacc, hactive, hnlt, hth, hcross]
  exact ⟨by rw [hmain body], (hmain body).trans (hmain (.ok ())).symm, hmain body⟩

/-- Witness for C7: balance 10, threshold 5, deduct 6 (crossing 10 → 4),
with the side-effect body raising an error: the deduct still commits. -/
theorem claim_C7_witness :
    (deductCredits "tenant-1" 6 .usage (.error "notification failed")
        ⟨some lowBalAccount, []⟩).lowBalanceTriggered = true
    ∧ deductCredits "tenant-1" 6 .usage (.error "notification failed")
        ⟨some lowBalAccount, []⟩
      = deductCredits "tenant-1" 6 .usage (.ok ()) ⟨some lowBalAccount, []⟩ := by
  have h := claim_C7_low_balance_never_blocks "tenant-1" 6 .usage
    (.error "notification failed") ⟨some lowBalAccount, []⟩ lowBalAccount 5
    rfl rfl rfl (by norm_num [lowBalAccount, createCreditAccount])
    (by norm_num [lowBalAccount, createCreditAccount])
    (by norm_num [lowBalAccount, createCreditAccount])
  exact ⟨h.1, h.2.1⟩

/-- Claim C10: lazy account creation is asymmetric — for a user with no
credit account, `getBalance` and `addCredits` create a fresh active
account with all balances 0 and proceed, while `deductCredits` throws
`Credit account not found` and writes neither an account row nor a
transaction row. -/
theorem claim_C10_lazy_creation_asymmetry (userId : String) (amount : ℚ)
    (type : CreditTransactionType) (body : Except String Unit) (s : LedgerState)
    (h : s.account = none) :
    getBalance s = (createCreditAccount, { s with account := some createCreditAccount })
    ∧ createCreditAccount.balance = 0
    ∧ createCreditAccount.totalAllocated = 0
    ∧ createCreditAccount.totalUsed = 0
    ∧ createCreditAccount.isActive = true
    ∧ (addCredits amount type s).2.account
        = some { createCreditAccount with balance := amount, totalAllocated := amount }
    ∧ (addCredits amount type s).2.transactions
        = s.transactions ++ [⟨type, amount, 0, amount⟩]
    ∧ deductCredits userId amount type body s
        = ⟨.error (.accountNotFound userId), s, false⟩ := by
  refine ⟨?_, rfl, rfl, rfl, rfl, ?_, ?_, ?_⟩
  · simp [getBalance, h]
  · simp [addCredits, h, createCreditAccount]
  · simp [addCredits, h, createCreditAccount]
  · simp [deductCredits, h]

/-- Witness for C10: the empty ledger state. -/
theorem claim_C10_witness :
    getBalance ⟨none, []⟩
      = (createCreditAccount, ⟨some createCreditAccount, []⟩)
    ∧ deductCredits "tenant-1" 5 .usage (.ok ()) ⟨none, []⟩
      = ⟨.error (.accountNotFound "tenant-1"), ⟨none, []⟩, false⟩ := by
  have h := claim_C10_lazy_creation_asymmetry "tenant-1" 5 .usage (.ok ())
    ⟨none, []⟩ rfl
  exact ⟨h.1, h.2.2.2.2.2.2.2⟩

/-- Claim C3: with `failureThreshold = 3`, starting CLOSED with
`failureCount = 0`, three classified failures (at `t1`, `t2`, `t3`) leave
the breaker OPEN with `nextAttemptTime = t3 + recoveryTimeout`; any call
before that time is rejected with the breaker-open error and zero
invocations of the operation; the first call at or after it runs the
operation exactly once as a HALF_OPEN probe, and a successful probe
leaves the breaker CLOSED with `failureCount = 0`. -/
theorem claim_C3_breaker_lifecycle (T M t1 t2 t3 t4 t5 : Nat)
    (lastFail : Option Nat) (nextAttempt : Nat)
    (h4 : t4 < t3 + T) (h5 : t3 + T ≤ t5) :
    CircuitBreaker.execute ⟨3, T, M⟩ ⟨.closed, 0, lastFail, nextAttempt⟩ t1 (.failure true)
      = ⟨.opFailed, ⟨.closed, 1, some t1, nextAttempt⟩, 1⟩
    ∧ CircuitBreaker.execute ⟨3, T, M⟩ ⟨.closed, 1, some t1, nextAttempt⟩ t2 (.failure true)
      = ⟨.opFailed, ⟨.closed, 2, some t2, nextAttempt⟩, 1⟩
    ∧ CircuitBreaker.execute ⟨3, T, M⟩ ⟨.closed, 2, some t2, nextAttempt⟩ t3 (.failure true)
      = ⟨.opFailed, ⟨.opened, 3, some t3, t3 + T⟩, 1⟩
    ∧ (∀ op, CircuitBreaker.execute ⟨3, T, M⟩ ⟨.opened, 3, some t3, t3 + T⟩ t4 op
        = ⟨.rejectedOpen, ⟨.opened, 3, some t3, t3 + T⟩, 0⟩)
    ∧ CircuitBreaker.execute ⟨3, T, M⟩ ⟨.opened, 3, some t3, t3 + T⟩ t5 .success
      = ⟨.opSucceeded, ⟨.closed, 0, some t3, t3 + T⟩, 1⟩ := by
  refine ⟨?_, ?_, ?_, ?_, ?_⟩
  · simp [CircuitBreaker.execute, CircuitBreaker.onFailure]
  · simp [CircuitBreaker.execute, CircuitBreaker.onFailure]
  · simp [CircuitBreaker.execute, CircuitBreaker.onFailure]
  · intro op
    simp [CircuitBreaker.execute, h4]
  · simp [CircuitBreaker.execute, CircuitBreaker.onSuccess, Nat.not_lt.mpr h5]

/-- Witness for C3: `recoveryTimeout = 10`, breaker opened at `t3 = 3`:
the probe at 13 succeeds and closes the breaker, the call at 12 is
rejected without an invocation. -/
theorem claim_C3_witness :
    CircuitBreaker.execute ⟨3, 10, 0⟩ ⟨.opened, 3, some 3, 13⟩ 13 .success
      = ⟨.opSucceeded, ⟨.closed, 0, some 3, 13⟩, 1⟩
    ∧ CircuitBreaker.execute ⟨3, 10, 0⟩ ⟨.opened, 3, some 3, 13⟩ 12 (.failure true)
      = ⟨.rejectedOpen, ⟨.opened, 3, some 3, 13⟩, 0⟩ := by
  have h := claim_C3_breaker_lifecycle 10 0 1 2 3 12 13 none 0 (by decide) (by decide)
  exact ⟨h.2.2.2.2, h.2.2.2.1 (.failure true)⟩

/-- Claim C8 (amended: except the OPEN → HALF_OPEN probe transition, which
`execute` performs before invoking the operation): an operation failure
whose error the classifier does not accept is rethrown, and leaves
`failureCount`, `lastFailureTime` and `nextAttemptTime` unchanged; the
state too is unchanged unless the call entered an expired OPEN breaker,
which had already moved to HALF_OPEN before the operation ran. -/
theorem claim_C8_unexpected_error_frame (opts : CircuitBreakerOptions)
    (b : CircuitBreaker) (now : Nat)
    (hopen : b.state = .opened → b.nextAttemptTime ≤ now) :
    CircuitBreaker.execute opts b now (.failure false)
      = ⟨.opFailed,
         { b with state := if b.state = .opened then .halfOpen else b.state },
         1⟩ := by
  have hnc : ¬ (b.state = .opened ∧ now < b.nextAttemptTime) := by
    rintro ⟨h1, h2⟩
    exact absurd h2 (Nat.not_lt.mpr (hopen h1))
  by_cases hb : b.state = .opened
  · simp [CircuitBreaker.execute, CircuitBreaker.onFailure, hb,
      Nat.not_lt.mpr (hopen hb)]
  · simp [CircuitBreaker.execute, CircuitBreaker.onFailure, hnc, hb]

/-- Witness for C8: a CLOSED breaker with one prior failure passes an
unexpected error through with nothing changed. -/
theorem claim_C8_witness :
    CircuitBreaker.execute ⟨3, 60000, 120000⟩ ⟨.closed, 1, none, 0⟩ 7 (.failure false)
      = ⟨.opFailed, ⟨.closed, 1, none, 0⟩, 1⟩ := by
  have h := claim_C8_unexpected_error_frame ⟨3, 60000, 120000⟩
    ⟨.closed, 1, none, 0⟩ 7 (by decide)
  simpa using h

/-- Counterexample for C8 as frozen: an expired OPEN breaker receiving an
unexpected failure does not keep its state — `execute` has moved it to
HALF_OPEN before the operation ran. -/
theorem claim_C8_counterexample :
    (CircuitBreaker.execute ⟨3, 60000, 120000⟩ ⟨.opened, 2, some 0, 5⟩ 5
        (.failure false)).breaker.state = .halfOpen
    ∧ (CircuitBreaker.execute ⟨3, 60000, 120000⟩ ⟨.opened, 2, some 0, 5⟩ 5
        (.failure false)).breaker.state ≠ .opened := by decide

/-! ### Retry-policy lemmas -/

/-- The retry loop runs the operation at most `remaining` times. -/
theorem withRetryGo_attempts_le (cfg : RetryOptions) (outcomes : Nat → AttemptOutcome)
    (rand : Nat → ℚ) :
    ∀ (r a : Nat), (withRetryGo cfg outcomes rand a r).attemptsUsed ≤ r := by
  intro r
  induction r with
  | zero => intro a; simp [withRetryGo]
  | succ n ih =>
    intro a
    cases houtcome : outcomes a with
    | success => simp [withRetryGo, houtcome]
    | failure nonRetryable =>
      cases nonRetryable with
      | true => simp [withRetryGo, houtcome]
      | false =>
        cases n with
        | zero => simp [withRetryGo, houtcome]
        | succ m =>
          have h := ih (a + 1)
          simp only [withRetryGo, houtcome]
          omega

/-- If the first `j` attempts fail retryably and attempt `j + 1` fails
non-retryably, the loop rethrows at once after exactly `j + 1` attempts. -/
theorem withRetryGo_nonretryable (cfg : RetryOptions) (outcomes : Nat → AttemptOutcome)
    (rand : Nat → ℚ) :
    ∀ (j r a : Nat), j < r →
      (∀ i, i < j → outcomes (a + i) = .failure false) →
      outcomes (a + j) = .failure true →
      (withRetryGo cfg outcomes rand a r).result = .error .nonRetryable
      ∧ (withRetryGo cfg outcomes rand a r).attemptsUsed = j + 1 := by
  intro j
  induction j with
  | zero =>
    intro r a hr _ hj
    obtain ⟨n, rfl⟩ := Nat.exists_eq_add_of_lt hr
    simp only [Nat.add_zero] at hj
    simp [withRetryGo, hj, Nat.zero_add]
  | succ m ih =>
    intro r a hr hpre hj
    obtain ⟨n, rfl⟩ := Nat.exists_eq_add_of_lt hr
    have h0 : outcomes a = .failure false := by
      simpa using hpre 0 (Nat.succ_pos m)
    have hrec := ih (m + n + 1) (a + 1) (by omega)
      (fun i hi => by
        have h := hpre (i + 1) (by omega)
        have hadd : a + (i + 1) = a + 1 + i := by omega
        rwa [hadd] at h)
      (by
        have hadd : a + (m + 1) = a + 1 + m := by omega
        rwa [hadd] at hj)
    have hrm : m + 1 + n + 1 = m + n + 1 + 1 := by omega
    rw [hrm]
    have hmn : m + n + 1 = (m + n) + 1 := rfl
    rw [hmn]
    simp only [withRetryGo, h0]
    exact ⟨hrec.1, by omega⟩

/-- Every delay the loop sleeps is the backoff formula at its attempt
index. -/
theorem withRetryGo_delays (cfg : RetryOptions) (outcomes : Nat → AttemptOutcome)
    (rand : Nat → ℚ) :
    ∀ (r a i : Nat) (d : ℚ),
      (withRetryGo cfg outcomes rand a r).delays.get? i = some d →
      d = retryDelay cfg (a + i) (rand (a + i)) := by
  intro r
  induction r with
  | zero => intro a i d h; simp [withRetryGo] at h
  | succ n ih =>
    intro a i d h
    cases houtcome : outcomes a with
    | success => simp [withRetryGo, houtcome] at h
    | failure nonRetryable =>
      cases nonRetryable with
      | true => simp [withRetryGo, houtcome] at h
      | false =>
        cases n with
        | zero => simp [withRetryGo, houtcome] at h
        | succ m =>
          simp only [withRetryGo, houtcome] at h
          cases i with
          | zero =>
            simp at h
            simpa using h.symm
          | succ k =>
            simp only [List.get?] at h
            have hrec := ih (a + 1) k d h
            have hadd : a + 1 + k = a + (k + 1) := by omega
            rwa [hadd] at hrec

/-- If every attempt fails retryably, the loop uses all `remaining`
attempts and throws the exhaustion error carrying `maxAttempts`. -/
theorem withRetryGo_exhausted (cfg : RetryOptions) (outcomes : Nat → AttemptOutcome)
    (rand : Nat → ℚ) (hall : ∀ i, outcomes i = .failure false) :
    ∀ (r a : Nat), 0 < r →
      (withRetryGo cfg outcomes rand a r).result = .error (.exhausted cfg.maxAttempts)
      ∧ (withRetryGo cfg outcomes rand a r).attemptsUsed = r := by
  intro r
  induction r with
  | zero => intro a h; exact absurd h (by omega)
  | succ n ih =>
    intro a _
    cases n with
    | zero => simp [withRetryGo, hall a]
    | succ m =>
      have hrec := ih (a + 1) (by omega)
      simp only [withRetryGo, hall a]
      exact ⟨hrec.1, by omega⟩


/-- Claim C5: `withRetry` runs the operation at most `maxAttempts` times;
a non-retryable error is rethrown immediately with no further attempts;
the delay before the retry following attempt `1 + i` is
`min(baseDelay * backoffMultiplier^i, maxDelay)`, multiplied by a factor
in [0.5, 1.0] when jitter is on; and failing every attempt with
`maxAttempts = 3` surfaces the exhaustion failure carrying attempt
count 3. -/
theorem claim_C5_withRetry_contract (cfg : RetryOptions)
    (outcomes : Nat → AttemptOutcome) (rand : Nat → ℚ) :
    (withRetry cfg outcomes rand).attemptsUsed ≤ cfg.maxAttempts
    ∧ (∀ j, j < cfg.maxAttempts →
        (∀ i, i < j → outcomes (1 + i) = .failure false) →
        outcomes (1 + j) = .failure true →
        (withRetry cfg outcomes rand).result = .error .nonRetryable
        ∧ (withRetry cfg outcomes rand).attemptsUsed = j + 1)
    ∧ (∀ i d, (withRetry cfg outcomes rand).delays.get? i = some d →
        (cfg.jitter = false →
          d = min (cfg.baseDelay * cfg.backoffMultiplier ^ i) cfg.maxDelay)
        ∧ (cfg.jitter = true → 0 ≤ rand (1 + i) → rand (1 + i) ≤ 1 →
            ∃ f : ℚ, 1/2 ≤ f ∧ f ≤ 1
              ∧ d = min (cfg.baseDelay * cfg.backoffMultiplier ^ i) cfg.maxDelay * f))
    ∧ (cfg.maxAttempts = 3 → (∀ i, outcomes i = .failure false) →
        (withRetry cfg outcomes rand).result = .error (.exhausted 3)
        ∧ (withRetry cfg outcomes rand).attemptsUsed = 3) := by
  simp only [withRetry]
  refine ⟨withRetryGo_attempts_le cfg outcomes rand cfg.maxAttempts 1, ?_, ?_, ?_⟩
  · intro j hj hpre hjt
    exact withRetryGo_nonretryable cfg outcomes rand j cfg.maxAttempts 1 hj hpre hjt
  · intro i d h
    have hd := withRetryGo_delays cfg outcomes rand cfg.maxAttempts 1 i d h
    have hexp : 1 + i - 1 = i := by omega
    constructor
    · intro hj
      rw [hd]
      simp [retryDelay, hj, hexp]
    · intro hj h0 h1
      refine ⟨1/2 + rand (1 + i) * (1/2), by linarith, by linarith, ?_⟩
      rw [hd]
      simp [retryDelay, hj, hexp]
  · intro h3 hall
    have h := withRetryGo_exhausted cfg outcomes rand hall cfg.maxAttempts 1 (by omega)
    rw [h3] at h
    rw [h3]
    exact h

/-- The `DEFAULT_RETRY_OPTIONS` shape with jitter off, as in the spec's
RetryPolicy test vector. -/
def cfgNoJitter : RetryOptions := ⟨3, 1000, 30000, 2, false⟩

/-- Witness for C5: an operation failing on all attempts under
`maxAttempts = 3` ends with the exhaustion error carrying 3, after 3
attempts. -/
theorem claim_C5_witness :
    (withRetry cfgNoJitter (fun _ => .failure false) (fun _ => 0)).result
      = .error (.exhausted 3)
    ∧ (withRetry cfgNoJitter (fun _ => .failure false) (fun _ => 0)).attemptsUsed
      = 3 :=
  (claim_C5_withRetry_contract cfgNoJitter (fun _ => .failure false)
    (fun _ => 0)).2.2.2 rfl (fun _ => rfl)

/-- The `standard` tier of `DEFAULT_PRICING_TIERS` (src/config/pricing.ts:22):
basePrice 0.002, sizeMultiplier 0.0002 per KB, durationMultiplier 0.00002
per second, with `/api/v1/proofs` mapped to 0.02. -/
def standardTierRule : PricingRule :=
  { basePrice := 0.002
    sizeMultiplier := 0.0002
    durationMultiplier := 0.00002
    endpointPricing := [("/api/v1/auth", 0.001), ("/api/v1/proofs", 0.02),
      ("/api/v1/verification", 0.01), ("/api/v1/blockchain", 0.04)] }

/-- Claim C6: on the standard tier, pricing 2048-byte request and response
with a 2000 ms duration against `/api/v1/proofs` yields exactly
`sizePrice = 0.0008`, `durationPrice = 0.00004`, `endpointPrice = 0.02`
and `totalPrice = 0.02284`, in exact arithmetic — both for the usage
processor's calculation and for `PricingCalculator.calculateCost`. -/
theorem claim_C6_pricing_standard_vector :
    performPricingCalculation "/api/v1/proofs" 2048 2048 2000 standardTierRule
      = { basePrice := 0.002, sizePrice := 0.0008, durationPrice := 0.00004,
          endpointPrice := 0.02, totalPrice := 0.02284 }
    ∧ calculateCost standardTierRule.basePrice standardTierRule.sizeMultiplier
        standardTierRule.durationMultiplier standardTierRule.endpointPricing
        "/api/v1/proofs" 2048 2048 2000
      = { basePrice := 0.002, sizePrice := 0.0008, durationPrice := 0.00004,
          endpointPrice := 0.02, totalPrice := 0.02284 } := by
  have hbeq : ("/api/v1/proofs" == "/api/v1/auth") = false := by decide
  constructor <;>
    norm_num [performPricingCalculation, calculateCost, endpointPriceOf,
      standardTierRule, List.lookup, hbeq]

/-- Claim C9: when the pricing-tier lookup fails, `estimateCost` returns 0
instead of propagating the error, and the pre-check — which only compares
the balance against a strictly positive estimate — admits the request
without any balance check; moreover an inactive tier row does make the
lookup fail. -/
theorem claim_C9_estimate_fails_open (db : List PricingTierRow)
    (tierName endpoint : String) (e : PricingError)
    (requestSize estimatedDuration balance : ℚ)
    (herr : getPricingRule db tierName = .error e) :
    estimateCost db tierName endpoint requestSize estimatedDuration = 0
    ∧ preCheckCredits (estimateCost db tierName endpoint requestSize estimatedDuration)
        balance
      = .admitted false
    ∧ (∀ row : PricingTierRow, row.isActive = false →
        getPricingRule [row] row.name = .error (.tierNotFound row.name)) := by
  have h0 : estimateCost db tierName endpoint requestSize estimatedDuration = 0 := by
    simp [estimateCost, herr]
  refine ⟨h0, by simp [h0, preCheckCredits], ?_⟩
  intro row hrow
  simp [getPricingRule, List.find?, hrow]

/-- Witness for C9: an empty tier table — the estimate is 0 and the
pre-check admits even a zero-balance user. -/
theorem claim_C9_witness :
    estimateCost [] "standard" "/api/v1/proofs" 2048 1000 = 0
    ∧ preCheckCredits (estimateCost [] "standard" "/api/v1/proofs" 2048 1000) 0
      = .admitted false
    ∧ (∀ row : PricingTierRow, row.isActive = false →
        getPricingRule [row] row.name = .error (.tierNotFound row.name)) :=
  claim_C9_estimate_fails_open [] "standard" "/api/v1/proofs"
    (.tierNotFound "standard") 2048 1000 0 rfl

/-- Claim C4: for the three configured chains with one adapter throwing
and the other two succeeding — in each of the three positions — the
fan-out returns normally with a settled entry per chain: the failing
chain's entry is a rejection carrying its error, the successful chains'
entries carry their tx hashes, which are also the only hashes recorded;
and for arbitrary chain outcomes the call never throws and always yields
exactly 3 per-chain results. -/
theorem claim_C4_anchor_fanout_partial_success (errMsg txE txA txS : String) :
    anchorToBlockchains (.error errMsg) (.ok txA) (.ok txS)
      = .ok ([.rejected errMsg, .fulfilled txA, .fulfilled txS],
             ⟨none, some txA, some txS⟩)
    ∧ anchorToBlockchains (.ok txE) (.error errMsg) (.ok txS)
      = .ok ([.fulfilled txE, .rejected errMsg, .fulfilled txS],
             ⟨some txE, none, some txS⟩)
    ∧ anchorToBlockchains (.ok txE) (.ok txA) (.error errMsg)
      = .ok ([.fulfilled txE, .fulfilled txA, .rejected errMsg],
             ⟨some txE, some txA, none⟩)
    ∧ (∀ eth arb stark : Except String String,
        ∃ results upd, anchorToBlockchains eth arb stark = .ok (results, upd)
          ∧ results.length = 3) := by
  refine ⟨rfl, rfl, rfl, ?_⟩
  intro eth arb stark
  exact ⟨_, _, rfl, rfl⟩

end ValyrHub
